import Mathlib

/-!
Verification of the laminterp interpreter (lexer, recursive-descent parser,
tree-walking evaluator for a small applicative lambda-calculus language).

The Go source is shallowly embedded: the lexer's cursor (`input`, `pos`,
`start`, `width`) becomes a `List Char` cursor where the not-yet-consumed
suffix is passed along and the accumulated run (`l.val()`) is rebuilt
explicitly; Go's `eof` rune is the empty-list case.  `*big.Int` becomes
`Int`.  Recursive procedures whose termination is not structural
(`parseExpression`, `evalEnv`) take an explicit fuel parameter; exhausting
the fuel is an artifact of the embedding and is reported as a distinct
value that no theorem identifies with the program's behaviour.
-/

namespace Laminterp

/-- Single-quote character, used to build Go's `'%s'`-style messages. -/
def sq : String := String.mk [Char.ofNat 39]

/-- Wraps a string in single quotes, as Go's `'%s'` verbs do. -/
def quoted (s : String) : String := sq ++ s ++ sq

/-- Token types, from `lex.go` (`tokenError … tokenRightParen`). -/
inductive tokenType : Type where
  | error
  | eof
  | number
  | bool
  | identifier
  | leftParen
  | rightParen
deriving DecidableEq, Repr

/-- A token returned from the lexer (`lex.go`, struct `token`). -/
structure token : Type where
  typ : tokenType
  val : String
deriving DecidableEq, Repr

/-- Function `errorTokenf` from `lex.go`, applied to an already-formatted message. -/
def errorToken (msg : String) : token := ⟨tokenType.error, msg⟩

/-- Predicate `isSpace` from `lex.go`: membership in `" \t\r\n"`. -/
def isSpace (c : Char) : Bool :=
  decide (c = ' ' ∨ c = Char.ofNat 9 ∨ c = Char.ofNat 13 ∨ c = Char.ofNat 10)

/-- Predicate `isLetter` from `lex.go`. -/
def isLetter (c : Char) : Bool :=
  decide (('a' ≤ c ∧ c ≤ 'z') ∨ ('A' ≤ c ∧ c ≤ 'Z'))

/-- Predicate `isDigit` from `lex.go`. -/
def isDigit (c : Char) : Bool :=
  decide ('0' ≤ c ∧ c ≤ '9')

/-- Predicate `isBoundary` from `lex.go`, restricted to the non-eof runes; the eof
case of Go's `isBoundary` is handled at each call site by matching on the
empty list. -/
def isBoundaryChar (c : Char) : Bool :=
  isSpace c || decide (c = ')')

/-- Function `skipSpaces` from `lex.go`: drop the leading run of spaces. -/
def skipSpaces : List Char → List Char
  | [] => []
  | c :: rest => if isSpace c then skipSpaces rest else c :: rest

/-- The digit-consuming loop inside `lexNumber`: returns the run of digits
and the unconsumed remainder (whose head is the rune the loop broke on). -/
def takeDigits : List Char → List Char × List Char
  | [] => ([], [])
  | c :: rest =>
    if isDigit c then
      let (ds, r) := takeDigits rest
      (c :: ds, r)
    else ([], c :: rest)

/-- Body of `lexNumber` from `lex.go` after the optional minus sign has
been consumed into `pre`.  Mirrors: require a digit, consume the digit
run, then require a boundary; error messages carry `l.val()`, the exact
consumed run (including a non-boundary rune that broke the run). -/
def lexNumberBody (pre : List Char) (input : List Char) : token × List Char :=
  match input with
  | [] =>
    -- ch = eof: not a digit; eof is a boundary, so it is pushed back
    (errorToken ("bad number syntax: " ++ quoted (String.mk pre)), [])
  | c :: rest =>
    if isDigit c then
      match takeDigits rest with
      | (ds, []) => (⟨tokenType.number, String.mk (pre ++ c :: ds)⟩, [])
      | (ds, b :: r2) =>
        if isBoundaryChar b then
          (⟨tokenType.number, String.mk (pre ++ c :: ds)⟩, b :: r2)
        else
          (errorToken ("bad number syntax: " ++ quoted (String.mk (pre ++ c :: ds ++ [b]))), r2)
    else
      if isBoundaryChar c then
        (errorToken ("bad number syntax: " ++ quoted (String.mk pre)), c :: rest)
      else
        (errorToken ("bad number syntax: " ++ quoted (String.mk (pre ++ [c]))), rest)

/-- Function `lexNumber` from `lex.go`.  Precondition in the source: the next rune
is a minus sign or a digit. -/
def lexNumber (input : List Char) : token × List Char :=
  match input with
  | [] => lexNumberBody [] []
  | c :: rest => if c = '-' then lexNumberBody [c] rest else lexNumberBody [] (c :: rest)

/-- The letter/digit-consuming loop inside `lexIdentifier`. -/
def takeAlnum : List Char → List Char × List Char
  | [] => ([], [])
  | c :: rest =>
    if isDigit c || isLetter c then
      let (as, r) := takeAlnum rest
      (c :: as, r)
    else ([], c :: rest)

/-- The reclassification at the end of `lexIdentifier`: the literals
`true` and `false` become bool tokens. -/
def classifyWord (v : String) : tokenType :=
  if v = "true" ∨ v = "false" then tokenType.bool else tokenType.identifier

/-- Function `lexIdentifier` from `lex.go`.  Precondition in the source: the first
rune is a letter and has already been consumed (passed here as `first`). -/
def lexIdentifier (first : Char) (input : List Char) : token × List Char :=
  match takeAlnum input with
  | (as, r) =>
    match r with
    | [] => (⟨classifyWord (String.mk (first :: as)), String.mk (first :: as)⟩, [])
    | b :: r2 =>
      if isBoundaryChar b then
        (⟨classifyWord (String.mk (first :: as)), String.mk (first :: as)⟩, b :: r2)
      else
        (errorToken ("bad identifier syntax: " ++ quoted (String.mk (first :: as ++ [b]))), r2)

/-- Function `nextToken` from `lex.go`: skip spaces, then dispatch on the first
rune; the eof case is the exhausted input. -/
def nextToken (input : List Char) : token × List Char :=
  match skipSpaces input with
  | [] => (⟨tokenType.eof, ""⟩, [])
  | c :: rest =>
    if c = '-' ∨ isDigit c = true then lexNumber (c :: rest)
    else if isLetter c then lexIdentifier c rest
    else if c = '(' then (⟨tokenType.leftParen, "("⟩, rest)
    else if c = ')' then (⟨tokenType.rightParen, ")"⟩, rest)
    else (errorToken ("illegal character: " ++ quoted (String.mk [c])), rest)

/-- Function `collectTokens` from `lex_test.go`: gather tokens until an error or
eof token is produced (fuelled; `input.length + 1` always suffices). -/
def collectTokens : Nat → List Char → List token
  | 0, _ => []
  | fuel + 1, input =>
    match nextToken input with
    | (t, rest) =>
      if t.typ = tokenType.error ∨ t.typ = tokenType.eof then [t]
      else t :: collectTokens fuel rest

/-- Syntax categories used in parse errors (`syntaxType` in the parser
source; renamed because `syntax` is reserved in Lean). -/
inductive synType : Type where
  | expression
  | rightParen
  | number
  | bool
  | identifier
  | eof
deriving DecidableEq, Repr

/-- Payload of an error node.  In the source this is any value satisfying
Go's `error` interface; the parser only ever stores a `fmt.Errorf` value
(here `generic`, holding the formatted message) or an `*expectError`
(here `expect`, holding the expected syntax category and received token
type).  Notably it never stores a bare Go `string`. -/
inductive parseErr : Type where
  | generic (msg : String)
  | expect (want : synType) (got : tokenType)
deriving DecidableEq, Repr

/-- Parse-tree nodes (`nodeType`/`node` with `appNode` and `lamNode`
inlined into the `app` and `lam` constructors). -/
inductive node : Type where
  | error (e : parseErr)
  | app (fn arg : node)
  | lam (param : String) (body : node)
  | identifier (name : String)
  | number (n : Int)
  | bool (b : Bool)
deriving DecidableEq, Repr

/-- Node tags, mirroring the Go `nodeType` enum checked via `n.typ`. -/
inductive nodeType : Type where
  | error
  | app
  | lam
  | identifier
  | number
  | bool
deriving DecidableEq, Repr

/-- The `typ` tag of a node. -/
def nodeTypeOf : node → nodeType
  | node.error _ => nodeType.error
  | node.app _ _ => nodeType.app
  | node.lam _ _ => nodeType.lam
  | node.identifier _ => nodeType.identifier
  | node.number _ => nodeType.number
  | node.bool _ => nodeType.bool

/-- Function `newExpectError` from the parser source. -/
def newExpectError (want : synType) (got : tokenType) : node :=
  node.error (parseErr.expect want got)

/-- Parser state: the lexer cursor plus the one-token pushback buffer
(`parser.buf`). -/
structure pstate : Type where
  buf : Option token
  input : List Char
deriving Repr

/-- Method `parser.next`: take the pushed-back token if present, else run the
lexer. -/
def pnext (p : pstate) : token × pstate :=
  match p.buf with
  | some t => (t, ⟨none, p.input⟩)
  | none =>
    match nextToken p.input with
    | (t, rest) => (t, ⟨none, rest⟩)

/-- Method `parser.unnext`.  In the source a second consecutive `unnext` panics;
every call site stores at most one token, and this model overwrites
(the overwriting case is never exercised). -/
def punnext (t : token) (p : pstate) : pstate := ⟨some t, p.input⟩

/-- Function `parseIdentifier` from the parser source. -/
def parseIdentifier (p : pstate) : node × pstate :=
  match pnext p with
  | (tok, p) =>
    if tok.typ = tokenType.identifier then (node.identifier tok.val, p)
    else (newExpectError synType.identifier tok.typ, p)

/-- The digit fold inside `big.Int.SetString` for base 10: `none` on an
empty-so-far accumulator is handled by the caller; a non-digit rune
rejects the whole string. -/
def digitsToNatAux (acc : Nat) : List Char → Option Nat
  | [] => some acc
  | c :: rest =>
    if isDigit c then digitsToNatAux (acc * 10 + (c.toNat - '0'.toNat)) rest
    else none

/-- Go's `new(big.Int).SetString(s, 10)`: an optional sign followed by at
least one decimal digit, consuming the entire string. -/
def setString10 (s : String) : Option Int :=
  match s.data with
  | [] => none
  | c :: rest =>
    if c = '+' then
      match rest with
      | [] => none
      | _ => (digitsToNatAux 0 rest).map Int.ofNat
    else if c = '-' then
      match rest with
      | [] => none
      | _ => (digitsToNatAux 0 rest).map (fun n => -(Int.ofNat n))
    else (digitsToNatAux 0 (c :: rest)).map Int.ofNat

/-- Function `parseNumber` from the parser source. -/
def parseNumber (p : pstate) : node × pstate :=
  match pnext p with
  | (tok, p) =>
    match setString10 tok.val with
    | none => (node.error (parseErr.generic ("bad number: " ++ quoted tok.val)), p)
    | some n => (node.number n, p)

/-- Function `parseBool` from the parser source. -/
def parseBool (p : pstate) : node × pstate :=
  match pnext p with
  | (tok, p) =>
    if tok.val = "true" then (node.bool true, p)
    else if tok.val = "false" then (node.bool false, p)
    else (node.error (parseErr.generic ("bad bool: " ++ quoted tok.val)), p)

/-- Function `parseLam` from the parser source; `pe` is the recursive call into
`parseExpression` (tied by the fuel there).  The Go code extracts the
parameter with `param.val.(string)`, which cannot fail because
`parseIdentifier` returned a non-error node. -/
def parseLam (pe : pstate → Option (node × pstate)) (p : pstate) : Option (node × pstate) :=
  match parseIdentifier p with
  | (param, p) =>
    if nodeTypeOf param = nodeType.error then some (param, p)
    else
      match pe p with
      | none => none
      | some (body, p) =>
        if nodeTypeOf body = nodeType.error then some (body, p)
        else
          match param with
          | node.identifier name => some (node.lam name body, p)
          | _ => some (node.error (parseErr.generic "internal: parameter is not an identifier"), p)

/-- Function `parseApp` from the parser source; `pe` as in `parseLam`. -/
def parseApp (pe : pstate → Option (node × pstate)) (p : pstate) : Option (node × pstate) :=
  match pe p with
  | none => none
  | some (fn, p) =>
    if nodeTypeOf fn = nodeType.error then some (fn, p)
    else
      match pe p with
      | none => none
      | some (arg, p) =>
        if nodeTypeOf arg = nodeType.error then some (arg, p)
        else some (node.app fn arg, p)

/-- Function `parseExpression` from the parser source, fuelled (`none` = fuel ran
out, an artifact of the embedding: the source recursion always
terminates because every recursive call follows the consumption of at
least one rune). -/
def parseExpression : Nat → pstate → Option (node × pstate)
  | 0, _ => none
  | fuel + 1, p =>
    match pnext p with
    | (tok, p) =>
      if tok.typ = tokenType.leftParen then
        match parseExpression fuel p with
        | none => none
        | some (e, p) =>
          if nodeTypeOf e = nodeType.error then some (e, p)
          else
            match pnext p with
            | (tok2, p) =>
              if tok2.typ = tokenType.rightParen then some (e, p)
              else some (newExpectError synType.rightParen tok2.typ, p)
      else if tok.typ = tokenType.rightParen then
        some (newExpectError synType.expression tokenType.rightParen, p)
      else if tok.typ = tokenType.identifier ∧ tok.val = "lam" then
        parseLam (parseExpression fuel) p
      else if tok.typ = tokenType.identifier ∧ tok.val = "app" then
        parseApp (parseExpression fuel) p
      else if tok.typ = tokenType.number then
        some (parseNumber (punnext tok p))
      else if tok.typ = tokenType.bool then
        some (parseBool (punnext tok p))
      else if tok.typ = tokenType.identifier then
        some (parseIdentifier (punnext tok p))
      else if tok.typ = tokenType.error then
        some (node.error (parseErr.generic tok.val), p)
      else if tok.typ = tokenType.eof then
        some (newExpectError synType.expression tokenType.eof, p)
      else
        -- Go's default arm; unreachable, every token type is matched above
        some (node.error (parseErr.generic "illegal token"), p)

/-- Method `parser.parse`: a top-level expression followed by end-of-input. -/
def parse (fuel : Nat) (p : pstate) : Option node :=
  match parseExpression fuel p with
  | none => none
  | some (root, p) =>
    if nodeTypeOf root = nodeType.error then some root
    else
      match pnext p with
      | (tok, _) =>
        if tok.typ = tokenType.eof then some root
        else some (newExpectError synType.eof tok.typ)

/-- Function `parseString` from the parser source.  The fuel `length + 1` always
suffices: each nested `parseExpression` call strictly follows the
consumption of a nonempty token. -/
def parseString (s : String) : Option node :=
  parse (s.data.length + 1) ⟨none, s.data⟩

/-- Function `isUnexpectedEOFError` from the parser source: an error node whose
payload is an `expectError` with received token kind eof. -/
def isUnexpectedEOFError (n : node) : Bool :=
  match n with
  | node.error e =>
    match e with
    | parseErr.expect _ got =>
      match got with
      | tokenType.eof => true
      | _ => false
    | _ => false
  | _ => false

mutual

/-- Runtime objects (`eval.go`, struct `object`).  `func` wraps a builtin
function value; `lam` is `lamObject` (the lambda node's parameter and
body plus the captured environment). -/
inductive object : Type where
  | error (msg : String)
  | bool (b : Bool)
  | number (n : Int)
  | func (f : funcObject)
  | lam (param : String) (body : node) (env : environment)

/-- First-order image of `funcObject` (Go closures).  The only function
values the interpreter ever creates are the three builtins and their
partial applications, so they are enumerated: `add1 an` is the closure
returned by `builtinAdd` after receiving the number `an` (the source
checks `a.typ` before building it, so the captured value is certainly a
number); `if1`/`if2` capture the checked bool and then the unevaluated
second argument; `gt1` is as `add1`. -/
inductive funcObject : Type where
  | add0
  | add1 (an : Int)
  | if0
  | if1 (ab : Bool)
  | if2 (ab : Bool) (b : object)
  | gt0
  | gt1 (an : Int)

/-- The immutable environment chain (`eval.go`, struct `environment`):
`empty` is Go's nil parent pointer. -/
inductive environment : Type where
  | empty
  | frame (parent : environment) (symbol : String) (val : object)

end

/-- Object tags, mirroring the Go `objectType` enum checked via `.typ`. -/
inductive objectType : Type where
  | error
  | bool
  | number
  | func
  | lam
deriving DecidableEq, Repr

/-- The `typ` tag of an object. -/
def objectTypeOf : object → objectType
  | object.error _ => objectType.error
  | object.bool _ => objectType.bool
  | object.number _ => objectType.number
  | object.func _ => objectType.func
  | object.lam _ _ _ => objectType.lam

/-- Method `object.String` from `eval.go`.  For `func` and `lam` values Go
prints a `%p` memory address, which has no counterpart here; those two
renderings keep the surrounding text and drop only the address. -/
def render : object → String
  | object.error msg => msg
  | object.bool b => if b then "true" else "false"
  | object.number n => toString n
  | object.func _ => "<function>"
  | object.lam param _ _ => "<lam " ++ param ++ ">"

/-- One curried application step of a builtin function value, collecting
the bodies of `builtinAdd`, `builtinIf` and `builtinGt` from `eval.go`.
Each stage's type check and error message are verbatim; `gt` returns
`true` exactly when `an.Cmp(bn) == 1`, that is `an > bn`. -/
def applyBuiltin : funcObject → object → object
  | funcObject.add0, a =>
    match a with
    | object.number an => object.func (funcObject.add1 an)
    | _ => object.error ("add: not a number: " ++ quoted (render a))
  | funcObject.add1 an, b =>
    match b with
    | object.number bn => object.number (an + bn)
    | _ => object.error ("add: not a number: " ++ quoted (render b))
  | funcObject.if0, a =>
    match a with
    | object.bool ab => object.func (funcObject.if1 ab)
    | _ => object.error ("if: not a bool: " ++ quoted (render a))
  | funcObject.if1 ab, b => object.func (funcObject.if2 ab b)
  | funcObject.if2 ab b, c => if ab then b else c
  | funcObject.gt0, a =>
    match a with
    | object.number an => object.func (funcObject.gt1 an)
    | _ => object.error ("gt: not a number: " ++ quoted (render a))
  | funcObject.gt1 an, b =>
    match b with
    | object.number bn => object.bool (decide (an > bn))
    | _ => object.error ("gt: not a number: " ++ quoted (render b))

/-- Method `environment.lookup` from `eval.go`: scan the chain innermost first;
the nil end of the chain yields the unknown-identifier error object. -/
def environment.lookup : environment → String → object
  | environment.empty, symbol =>
    object.error ("unknown identifier: " ++ quoted symbol)
  | environment.frame parent sym v, symbol =>
    if symbol = sym then v else environment.lookup parent symbol

/-- Method `environment.extend` from `eval.go` (= `newEnvironment e symbol val`). -/
def environment.extend (e : environment) (symbol : String) (val : object) : environment :=
  environment.frame e symbol val

/-- Evaluation results.  Go's `evalEnv` returns an `*object`; a Go panic
(process abort) is `panicked`, and `timeout` is the fuel-exhaustion
artifact of the embedding. -/
inductive evalResult : Type where
  | ok (o : object)
  | panicked (msg : String)
  | timeout

/-- The message of the panic raised by `evalEnv`'s `nodeError` case: the
source executes `n.val.(string)`, but every error node stores a value of
Go's `error` interface type (`errorNodef` stores a `fmt.Errorf` value,
`newExpectError` an `*expectError` — see the `nodeError` comment in the
parser), never a `string`, so the single-value type assertion always
panics with an interface-conversion error. -/
def goPanicMessage : String :=
  "interface conversion: the parse error payload held by the node is not a string"

/-- Function `evalEnv` from `eval.go`, fuelled.  The `applyer` dispatch
(`fn.val.(applyer)`) is the inner match on the function object: builtin
function values run `funcObject.apply`, closures run `lamObject.apply`
(evaluate the body in the captured environment extended with
parameter ↦ argument), and every other object is an invalid function. -/
def evalEnv : Nat → node → environment → evalResult
  | 0, _, _ => evalResult.timeout
  | fuel + 1, n, env =>
    match n with
    | node.app fnN argN =>
      match evalEnv fuel fnN env with
      | evalResult.ok fn =>
        if objectTypeOf fn = objectType.error then evalResult.ok fn
        else
          match evalEnv fuel argN env with
          | evalResult.ok arg =>
            if objectTypeOf arg = objectType.error then evalResult.ok arg
            else
              match fn with
              | object.func f => evalResult.ok (applyBuiltin f arg)
              | object.lam param body cenv =>
                evalEnv fuel body (environment.extend cenv param arg)
              | _ =>
                evalResult.ok (object.error ("apply: invalid function: " ++ quoted (render fn)))
          | r => r
      | r => r
    | node.lam param body => evalResult.ok (object.lam param body env)
    | node.number v => evalResult.ok (object.number v)
    | node.bool b => evalResult.ok (object.bool b)
    | node.identifier s => evalResult.ok (environment.lookup env s)
    | node.error _ => evalResult.panicked goPanicMessage

/-- The builtin `add` as an object (`builtinAdd`). -/
def builtinAdd : object := object.func funcObject.add0

/-- The builtin `if` as an object (`builtinIf`). -/
def builtinIf : object := object.func funcObject.if0

/-- The builtin `gt` as an object (`builtinGt`). -/
def builtinGt : object := object.func funcObject.gt0

/-- Value `defaultEnvironment` from `eval.go`. -/
def defaultEnvironment : environment :=
  ((environment.frame environment.empty "add" builtinAdd).extend "if" builtinIf).extend
    "gt" builtinGt

/-- Function `eval` from `eval.go`: evaluate under the default environment. -/
def eval (fuel : Nat) (n : node) : evalResult :=
  evalEnv fuel n defaultEnvironment

/-- Function `evalString` from `eval.go`: parse then evaluate under the default
environment (`none` only when the parse fuel artifact fires, which it
never does for `parseString`'s bound). -/
def evalString (fuel : Nat) (s : String) : Option evalResult :=
  (parseString s).map (eval fuel)

/-- The mathematical value of a run of decimal digits (most significant
first): the standard base-10 fold.  This is the specification-side
meaning of a numeral, against which the lexer/parser/evaluator chain is
compared. -/
def decNat (ds : List Char) : Nat :=
  ds.foldl (fun acc c => acc * 10 + (c.toNat - '0'.toNat)) 0

/-- The value of a decimal literal with an optional leading minus sign. -/
def litValue (neg : Bool) (ds : List Char) : Int :=
  if neg then -(Int.ofNat (decNat ds)) else Int.ofNat (decNat ds)

/-- A 101-digit run of decimal digits, used to instantiate the
round-trip theorem on a literal far beyond any machine-word range. -/
def dsBig : List Char :=
  ("12345678901234567890123456789012345678901234567890" ++
   "123456789012345678901234567890123456789012345678907").data

/-!
Helper lemmas about the lexer on digit runs.
-/

/-- Two runes cannot be equal when exactly one of them is a digit. -/
theorem isDigit_ne {c : Char} (h : isDigit c = true) {d : Char}
    (hd : isDigit d = false) : ¬(c = d) := by
  intro he
  rw [he, hd] at h
  simp at h

/-- A digit is not one of the four space runes. -/
theorem isDigit_not_space {c : Char} (h : isDigit c = true) : isSpace c = false := by
  show decide _ = false
  apply decide_eq_false
  intro hs
  rcases hs with h0 | h0 | h0 | h0 <;> subst h0 <;> exact absurd h (by decide)

/-- Lemma: `skipSpaces` leaves input starting with a non-space rune unchanged. -/
theorem skipSpaces_cons {c : Char} (h : isSpace c = false) (r : List Char) :
    skipSpaces (c :: r) = c :: r := by
  simp [skipSpaces, h]

/-- The digit loop consumes an all-digit input entirely. -/
theorem takeDigits_all (ds : List Char) (h : ∀ c ∈ ds, isDigit c = true) :
    takeDigits ds = (ds, []) := by
  induction ds with
  | nil => rfl
  | cons c rest ih =>
    have hc : isDigit c = true := h c (List.mem_cons_self c rest)
    have hr := ih (fun d hd => h d (List.mem_cons_of_mem c hd))
    simp [takeDigits, hc, hr]

/-- Lemma: `lexNumberBody` on a nonempty all-digit input emits one number token
covering `pre` and the digits, ending the input. -/
theorem lexNumberBody_digits (pre : List Char) (ds : List Char) (h1 : ds ≠ [])
    (h2 : ∀ c ∈ ds, isDigit c = true) :
    lexNumberBody pre ds = (⟨tokenType.number, String.mk (pre ++ ds)⟩, []) := by
  cases ds with
  | nil => exact absurd rfl h1
  | cons d rest =>
    have hd : isDigit d = true := h2 d (List.mem_cons_self d rest)
    have ht : takeDigits rest = (rest, []) :=
      takeDigits_all rest (fun c hc => h2 c (List.mem_cons_of_mem d hc))
    simp [lexNumberBody, hd, ht]

/-- Lemma: `nextToken` on an optionally-signed nonempty digit run emits the
single number token holding exactly that text. -/
theorem nextToken_number (neg : Bool) (ds : List Char) (h1 : ds ≠ [])
    (h2 : ∀ c ∈ ds, isDigit c = true) :
    nextToken ((if neg then ['-'] else []) ++ ds)
      = (⟨tokenType.number, String.mk ((if neg then ['-'] else []) ++ ds)⟩, []) := by
  cases neg with
  | true =>
    have hss := skipSpaces_cons (c := '-') (by decide) ds
    have hlnb := lexNumberBody_digits ['-'] ds h1 h2
    simp [nextToken, hss, lexNumber, hlnb]
  | false =>
    cases ds with
    | nil => exact absurd rfl h1
    | cons d rest =>
      have hd : isDigit d = true := h2 d (List.mem_cons_self d rest)
      have hss := skipSpaces_cons (isDigit_not_space hd) rest
      have hne : ¬(d = '-') := isDigit_ne hd (by decide)
      have hlnb := lexNumberBody_digits [] (d :: rest) h1 h2
      simp [nextToken, hss, hd, lexNumber, hne, hlnb]

/-- The `SetString` digit fold succeeds on an all-digit input and
computes the base-10 fold from any accumulator. -/
theorem digitsToNatAux_all (ds : List Char) (h : ∀ c ∈ ds, isDigit c = true) :
    ∀ acc, digitsToNatAux acc ds
      = some (ds.foldl (fun acc c => acc * 10 + (c.toNat - '0'.toNat)) acc) := by
  induction ds with
  | nil => intro acc; rfl
  | cons c rest ih =>
    intro acc
    have hc : isDigit c = true := h c (List.mem_cons_self c rest)
    have hr := ih (fun d hd => h d (List.mem_cons_of_mem c hd))
    simp [digitsToNatAux, hc, hr, List.foldl]

/-- Lemma: `big.Int.SetString` on an optionally-signed nonempty digit run
yields exactly the literal's value. -/
theorem setString10_digits (neg : Bool) (ds : List Char) (h1 : ds ≠ [])
    (h2 : ∀ c ∈ ds, isDigit c = true) :
    setString10 (String.mk ((if neg then ['-'] else []) ++ ds)) = some (litValue neg ds) := by
  cases ds with
  | nil => exact absurd rfl h1
  | cons d rest =>
    have hd : isDigit d = true := h2 d (List.mem_cons_self d rest)
    have hanx := digitsToNatAux_all (d :: rest) h2 0
    cases neg with
    | true =>
      show setString10 (String.mk ('-' :: d :: rest)) = _
      simp [setString10, hanx, litValue, decNat]
    | false =>
      have hne1 : ¬(d = '+') := isDigit_ne hd (by decide)
      have hne2 : ¬(d = '-') := isDigit_ne hd (by decide)
      show setString10 (String.mk (d :: rest)) = _
      simp [setString10, hanx, hne1, hne2, litValue, decNat]

/-- Lemma: `nextToken` on empty input emits the eof token. -/
theorem nextToken_nil : nextToken [] = (⟨tokenType.eof, ""⟩, []) := rfl

/-- Lemma: `parseString` on an optionally-signed nonempty digit run produces
the number node holding exactly the literal's value. -/
theorem parseString_number (neg : Bool) (ds : List Char) (h1 : ds ≠ [])
    (h2 : ∀ c ∈ ds, isDigit c = true) :
    parseString (String.mk ((if neg then ['-'] else []) ++ ds))
      = some (node.number (litValue neg ds)) := by
  have hnt := nextToken_number neg ds h1 h2
  have hss := setString10_digits neg ds h1 h2
  simp [parseString, parse, parseExpression, pnext, punnext, parseNumber,
    nodeTypeOf, hnt, hss, nextToken_nil]

/-- C3: for every decimal number literal N (optionally negative, of any
digit length), evaluating the parse of N under the default environment
yields the arbitrary-precision integer object whose value is exactly N,
with no precision loss. -/
theorem number_literal_roundtrip (neg : Bool) (ds : List Char) (h1 : ds ≠ [])
    (h2 : ∀ c ∈ ds, isDigit c = true) (fuel : Nat) :
    evalString (fuel + 1) (String.mk ((if neg then ['-'] else []) ++ ds))
      = some (evalResult.ok (object.number (litValue neg ds))) := by
  have hp := parseString_number neg ds h1 h2
  simp [evalString, hp, eval, evalEnv]

set_option maxRecDepth 8192 in
/-- Witness for C3 at a concrete 101-digit negative literal. -/
theorem number_literal_roundtrip_witness :
    evalString 1 (String.mk ((if true then ['-'] else []) ++ dsBig))
      = some (evalResult.ok (object.number (litValue true dsBig)))
    ∧ litValue true dsBig =
      -(12345678901234567890123456789012345678901234567890123456789012345678901234567890123456789012345678907 : Int) :=
  ⟨number_literal_roundtrip true dsBig (by decide) (by decide) 0, by decide⟩

/-- C8: the claim that evaluation never aborts fails on error nodes,
which are reachable from `parse`: `evalEnv`'s `nodeError` case runs the
type assertion `n.val.(string)`, but every error node stores a value of
Go's `error` interface type, so the assertion panics (a process abort)
instead of producing the promised "parse error: …" error object. -/
theorem eval_error_node_aborts :
    parseString ")" = some (newExpectError synType.expression tokenType.rightParen)
    ∧ evalString 1 ")" = some (evalResult.panicked goPanicMessage)
    ∧ (∀ fuel e env, evalEnv (fuel + 1) (node.error e) env = evalResult.panicked goPanicMessage) :=
  ⟨by decide, rfl, fun _ _ _ => rfl⟩

/-- C6 counterexample: lexing "truex" does not produce an error token at
all — `x` is a letter, so the run continues and forms the single
well-formed identifier token "truex" (then eof), refuting "lexing
\"truex\" produces exactly one error token". -/
theorem lexer_truex_counterexample :
    collectTokens 5 ("truex".data)
      = [⟨tokenType.identifier, "truex"⟩, ⟨tokenType.eof, ""⟩]
    ∧ (collectTokens 5 ("truex".data)).length ≠ 1
    ∧ ((collectTokens 5 ("truex".data)).countP (fun t => t.typ = tokenType.error)) = 0 := by
  decide

/-- C6 amended: a run that violates the boundary rule yields a single
error token whose message covers the consumed run ("3x", "x'", "x("),
never a valid token followed by garbage; but "truex" violates no
boundary rule — letters extend the run — so it lexes as the single
identifier token "truex" (neither a bool token followed by another
token, nor an error). -/
theorem lexer_boundary_tokens :
    collectTokens 5 ("3x".data) = [errorToken ("bad number syntax: " ++ quoted "3x")]
    ∧ collectTokens 5 ("truex".data)
      = [⟨tokenType.identifier, "truex"⟩, ⟨tokenType.eof, ""⟩]
    ∧ ((collectTokens 5 ("truex".data)).countP (fun t => t.typ = tokenType.bool)) = 0
    ∧ collectTokens 5 ('x' :: [Char.ofNat 39])
      = [errorToken ("bad identifier syntax: " ++ quoted (String.mk ('x' :: [Char.ofNat 39])))]
    ∧ collectTokens 5 ("x(".data) = [errorToken ("bad identifier syntax: " ++ quoted "x(")] := by
  decide

/-- C7 counterexample: in "lam lam lam" the trailing `lam` sits where
the body would reference the parameter named "lam"; were `lam` an
ordinary identifier there, the parse would be the lambda node with
identifier body, but the parser treats it as a keyword and fails. -/
theorem keyword_reference_counterexample :
    parseString "lam lam lam"
      = some (node.error (parseErr.expect synType.identifier tokenType.eof))
    ∧ parseString "lam lam lam" ≠ some (node.lam "lam" (node.identifier "lam")) := by
  decide

/-- C7 amended: `lam` and `app` are keywords in every expression
position (each expression position is head position), so they can never
be referenced as identifiers; only as a lambda parameter name do they
parse as ordinary identifiers (stored as the parameter string). -/
theorem keyword_positions :
    parseString "lam lam 3" = some (node.lam "lam" (node.number 3))
    ∧ parseString "lam app 3" = some (node.lam "app" (node.number 3))
    ∧ parseString "lam x x" = some (node.lam "x" (node.identifier "x"))
    ∧ parseString "app add 1" = some (node.app (node.identifier "add") (node.number 1))
    ∧ parseString "lam lam lam"
      = some (node.error (parseErr.expect synType.identifier tokenType.eof))
    ∧ parseString "app lam x x lam"
      = some (node.error (parseErr.expect synType.identifier tokenType.eof)) := by
  decide

/-- C9: the incomplete-input predicate holds exactly on error nodes
whose payload is an expected/received mismatch with received token kind
eof; in particular parse "lam x" (missing body) is classified as
incomplete. -/
theorem incomplete_input_predicate :
    (∀ n, isUnexpectedEOFError n = true
      ↔ ∃ want, n = node.error (parseErr.expect want tokenType.eof))
    ∧ parseString "lam x" = some (newExpectError synType.expression tokenType.eof)
    ∧ isUnexpectedEOFError (newExpectError synType.expression tokenType.eof) = true := by
  refine ⟨fun n => ?_, by decide, rfl⟩
  cases n with
  | error e =>
    cases e with
    | generic msg => simp [isUnexpectedEOFError]
    | expect want got =>
      cases got <;> simp [isUnexpectedEOFError, newExpectError]
  | app fn arg => simp [isUnexpectedEOFError]
  | lam p b => simp [isUnexpectedEOFError]
  | identifier s => simp [isUnexpectedEOFError]
  | number v => simp [isUnexpectedEOFError]
  | bool b => simp [isUnexpectedEOFError]

/-- C10: the predicate is true only for expect-mismatch error nodes with
received kind eof; it is false on every non-error node and on every
error node built from a lexical error token (a generic payload), so "-"
and "3x" — whose lexing fails at the end of the text — are genuine
failures, not incomplete input. -/
theorem incomplete_only_expect_eof :
    (∀ n, isUnexpectedEOFError n = true
      → ∃ want, n = node.error (parseErr.expect want tokenType.eof))
    ∧ (∀ n, nodeTypeOf n ≠ nodeType.error → isUnexpectedEOFError n = false)
    ∧ (∀ msg, isUnexpectedEOFError (node.error (parseErr.generic msg)) = false)
    ∧ parseString "-" = some (node.error (parseErr.generic ("bad number syntax: " ++ quoted "-")))
    ∧ isUnexpectedEOFError (node.error (parseErr.generic ("bad number syntax: " ++ quoted "-"))) = false
    ∧ parseString "3x" = some (node.error (parseErr.generic ("bad number syntax: " ++ quoted "3x")))
    ∧ isUnexpectedEOFError (node.error (parseErr.generic ("bad number syntax: " ++ quoted "3x"))) = false := by
  refine ⟨fun n h => ?_, fun n h => ?_, fun msg => rfl, by decide, rfl, by decide, rfl⟩
  · cases n with
    | error e =>
      cases e with
      | generic msg => simp [isUnexpectedEOFError] at h
      | expect want got =>
        cases got <;> simp [isUnexpectedEOFError] at h
        exact ⟨want, rfl⟩
    | app fn arg => simp [isUnexpectedEOFError] at h
    | lam p b => simp [isUnexpectedEOFError] at h
    | identifier s => simp [isUnexpectedEOFError] at h
    | number v => simp [isUnexpectedEOFError] at h
    | bool b => simp [isUnexpectedEOFError] at h
  · cases n with
    | error e => exact absurd rfl h
    | app fn arg => rfl
    | lam p b => rfl
    | identifier s => rfl
    | number v => rfl
    | bool b => rfl

/-- Witness for C10 at concrete nodes. -/
theorem incomplete_only_expect_eof_witness :
    (∃ want, newExpectError synType.expression tokenType.eof
      = node.error (parseErr.expect want tokenType.eof))
    ∧ isUnexpectedEOFError (node.number 0) = false :=
  ⟨incomplete_only_expect_eof.1 (newExpectError synType.expression tokenType.eof) (by decide),
   incomplete_only_expect_eof.2.1 (node.number 0) (by decide)⟩

/-- Tag of an error object. -/
theorem objectTypeOf_error (msg : String) :
    objectTypeOf (object.error msg) = objectType.error := rfl

/-- Tag of a bool object. -/
theorem objectTypeOf_bool (b : Bool) :
    objectTypeOf (object.bool b) = objectType.bool := rfl

/-- Tag of a number object. -/
theorem objectTypeOf_number (n : Int) :
    objectTypeOf (object.number n) = objectType.number := rfl

/-- Tag of a builtin function object. -/
theorem objectTypeOf_func (f : funcObject) :
    objectTypeOf (object.func f) = objectType.func := rfl

/-- Tag of a closure object. -/
theorem objectTypeOf_lam (p : String) (b : node) (e : environment) :
    objectTypeOf (object.lam p b e) = objectType.lam := rfl

/-- C1: an application evaluates the function subexpression first; an
error there is returned with the argument never evaluated (the result
does not depend on the argument expression); otherwise the argument is
evaluated and an error there is returned without invoking the function;
only when both are non-errors is the function value applied, and
applying a value that is neither a builtin function nor a closure
yields the invalid-function error object, not an abort. -/
theorem app_eval_order :
    (∀ fuel fnN argN env msg,
      evalEnv fuel fnN env = evalResult.ok (object.error msg) →
      evalEnv (fuel + 1) (node.app fnN argN) env = evalResult.ok (object.error msg))
    ∧ (∀ fuel fnN argN env fnv msg,
      evalEnv fuel fnN env = evalResult.ok fnv →
      objectTypeOf fnv ≠ objectType.error →
      evalEnv fuel argN env = evalResult.ok (object.error msg) →
      evalEnv (fuel + 1) (node.app fnN argN) env = evalResult.ok (object.error msg))
    ∧ (∀ fuel fnN argN env f argv,
      evalEnv fuel fnN env = evalResult.ok (object.func f) →
      evalEnv fuel argN env = evalResult.ok argv →
      objectTypeOf argv ≠ objectType.error →
      evalEnv (fuel + 1) (node.app fnN argN) env = evalResult.ok (applyBuiltin f argv))
    ∧ (∀ fuel fnN argN env fnv argv,
      evalEnv fuel fnN env = evalResult.ok fnv →
      objectTypeOf fnv ≠ objectType.error →
      objectTypeOf fnv ≠ objectType.func →
      objectTypeOf fnv ≠ objectType.lam →
      evalEnv fuel argN env = evalResult.ok argv →
      objectTypeOf argv ≠ objectType.error →
      evalEnv (fuel + 1) (node.app fnN argN) env
        = evalResult.ok (object.error ("apply: invalid function: " ++ quoted (render fnv)))) := by
  refine ⟨fun fuel fnN argN env msg h => ?_,
    fun fuel fnN argN env fnv msg h1 h2 h3 => ?_,
    fun fuel fnN argN env f argv h1 h2 h3 => ?_,
    fun fuel fnN argN env fnv argv h1 h2 h3 h4 h5 h6 => ?_⟩
  · simp [evalEnv, h, objectTypeOf_error]
  · simp [evalEnv, h1, h2, h3, objectTypeOf_error]
  · simp [evalEnv, h1, h2, h3, objectTypeOf_func]
  · cases fnv with
    | error m => simp [objectTypeOf_error] at h2
    | func f => simp [objectTypeOf_func] at h3
    | lam p b ce => simp [objectTypeOf_lam] at h4
    | bool b => simp [evalEnv, h1, h5, h6, objectTypeOf_bool]
    | number v => simp [evalEnv, h1, h5, h6, objectTypeOf_number]

/-- Witness for C1 at concrete nodes: an erroring function expression
short-circuits, and applying the number 7 is an error object. -/
theorem app_eval_order_witness :
    evalEnv 2 (node.app (node.identifier "zz") (node.number 1)) environment.empty
      = evalResult.ok (object.error ("unknown identifier: " ++ quoted "zz"))
    ∧ evalEnv 2 (node.app (node.number 7) (node.number 1)) environment.empty
      = evalResult.ok (object.error ("apply: invalid function: " ++ quoted (render (object.number 7)))) :=
  ⟨app_eval_order.1 1 (node.identifier "zz") (node.number 1) environment.empty
      ("unknown identifier: " ++ quoted "zz") rfl,
   app_eval_order.2.2.2 1 (node.number 7) (node.number 1) environment.empty
      (object.number 7) (object.number 1) rfl (by decide) (by decide) (by decide) rfl (by decide)⟩

/-- C2: a lambda node evaluates to a closure capturing the environment
current at its creation; applying the closure evaluates its body in that
captured environment extended with one frame binding parameter to
argument; lookup scans frames innermost-to-outermost with the first
match winning (so an inner binding shadows every outer one); and
evaluate (parse "app app lam x lam y x 1 2") is the number object 1. -/
theorem closure_semantics :
    (∀ fuel param body env,
      evalEnv (fuel + 1) (node.lam param body) env = evalResult.ok (object.lam param body env))
    ∧ (∀ fuel fnN argN env p b ce argv,
      evalEnv fuel fnN env = evalResult.ok (object.lam p b ce) →
      evalEnv fuel argN env = evalResult.ok argv →
      objectTypeOf argv ≠ objectType.error →
      evalEnv (fuel + 1) (node.app fnN argN) env
        = evalEnv fuel b (environment.extend ce p argv))
    ∧ (∀ env sym v, environment.lookup (environment.frame env sym v) sym = v)
    ∧ (∀ env sym sym2 v, sym ≠ sym2 →
      environment.lookup (environment.frame env sym2 v) sym = environment.lookup env sym)
    ∧ evalString 20 "app app lam x lam y x 1 2" = some (evalResult.ok (object.number 1)) := by
  refine ⟨fun fuel param body env => ?_,
    fun fuel fnN argN env p b ce argv h1 h2 h3 => ?_,
    fun env sym v => ?_, fun env sym sym2 v h => ?_, rfl⟩
  · simp [evalEnv]
  · simp [evalEnv, h1, h2, h3, objectTypeOf_lam, environment.extend]
  · simp [environment.lookup]
  · simp [environment.lookup, h]

/-- Witness for C2: applying the identity closure to 5 steps into its
body under the extended frame, and lookup skips a mismatched frame. -/
theorem closure_semantics_witness :
    evalEnv 2 (node.app (node.lam "x" (node.identifier "x")) (node.number 5)) environment.empty
      = evalEnv 1 (node.identifier "x")
          (environment.extend environment.empty "x" (object.number 5))
    ∧ environment.lookup (environment.frame environment.empty "y" (object.number 9)) "x"
      = environment.lookup environment.empty "x" :=
  ⟨closure_semantics.2.1 1 (node.lam "x" (node.identifier "x")) (node.number 5)
      environment.empty "x" (node.identifier "x") environment.empty (object.number 5)
      rfl rfl (by decide),
   closure_semantics.2.2.2.1 environment.empty "x" "y" (object.number 9) (by decide)⟩

/-- C4: the builtin `if` applied to a non-bool first argument yields the
"if: not a bool" error object; applied to a bool it selects its second
argument when true and its third otherwise; and both branch arguments
are evaluated by the surrounding application chain before `if`
dispatches, so an error in the unselected branch expression is the
result (no short-circuiting). -/
theorem builtin_if_semantics :
    (∀ a, objectTypeOf a ≠ objectType.bool →
      applyBuiltin funcObject.if0 a = object.error ("if: not a bool: " ++ quoted (render a)))
    ∧ (∀ ab, applyBuiltin funcObject.if0 (object.bool ab) = object.func (funcObject.if1 ab))
    ∧ (∀ ab b, applyBuiltin (funcObject.if1 ab) b = object.func (funcObject.if2 ab b))
    ∧ (∀ b c, applyBuiltin (funcObject.if2 true b) c = b)
    ∧ (∀ b c, applyBuiltin (funcObject.if2 false b) c = c)
    ∧ evalString 20 "app app app if true 1 x"
      = some (evalResult.ok (object.error ("unknown identifier: " ++ quoted "x")))
    ∧ evalString 20 "app app app if false x 2"
      = some (evalResult.ok (object.error ("unknown identifier: " ++ quoted "x")))
    ∧ evalString 20 "app app app if 1 2 3"
      = some (evalResult.ok (object.error ("if: not a bool: " ++ quoted "1")))
    ∧ evalString 20 "app app app if true 1 2" = some (evalResult.ok (object.number 1))
    ∧ evalString 20 "app app app if false 1 2" = some (evalResult.ok (object.number 2)) := by
  refine ⟨fun a h => ?_, fun ab => rfl, fun ab b => rfl, fun b c => rfl, fun b c => rfl,
    rfl, rfl, rfl, rfl, rfl⟩
  cases a with
  | bool b => simp [objectTypeOf_bool] at h
  | error m => rfl
  | number v => rfl
  | func f => rfl
  | lam p b e => rfl

/-- Witness for C4: `if` applied to the number 1 is the not-a-bool
error object. -/
theorem builtin_if_semantics_witness :
    applyBuiltin funcObject.if0 (object.number 1)
      = object.error ("if: not a bool: " ++ quoted (render (object.number 1))) :=
  builtin_if_semantics.1 (object.number 1) (by decide)

/-- C5: the builtin `add`, curried over two arguments, returns the exact
arbitrary-precision sum on two numbers; a non-number in either curried
position yields the "add: not a number: '<value>'" error object naming
the offending argument, symmetrically. -/
theorem builtin_add_semantics :
    (∀ an bn : Int, applyBuiltin funcObject.add0 (object.number an)
        = object.func (funcObject.add1 an)
      ∧ applyBuiltin (funcObject.add1 an) (object.number bn) = object.number (an + bn))
    ∧ (∀ a, objectTypeOf a ≠ objectType.number →
      applyBuiltin funcObject.add0 a
        = object.error ("add: not a number: " ++ quoted (render a)))
    ∧ (∀ an b, objectTypeOf b ≠ objectType.number →
      applyBuiltin (funcObject.add1 an) b
        = object.error ("add: not a number: " ++ quoted (render b)))
    ∧ evalString 20 "app app add false 1"
      = some (evalResult.ok (object.error ("add: not a number: " ++ quoted "false")))
    ∧ evalString 20 "app app add 1 false"
      = some (evalResult.ok (object.error ("add: not a number: " ++ quoted "false")))
    ∧ evalString 20 "app app add 1 3" = some (evalResult.ok (object.number 4))
    ∧ evalString 20 "app app add -7 3" = some (evalResult.ok (object.number (-4))) := by
  refine ⟨fun an bn => ⟨rfl, rfl⟩, fun a h => ?_, fun an b h => ?_, rfl, rfl, rfl, rfl⟩
  · cases a with
    | number v => simp [objectTypeOf_number] at h
    | error m => rfl
    | bool b => rfl
    | func f => rfl
    | lam p b e => rfl
  · cases b with
    | number v => simp [objectTypeOf_number] at h
    | error m => rfl
    | bool b2 => rfl
    | func f => rfl
    | lam p b2 e => rfl

/-- Witness for C5: `add` rejects a bool in the first and in the second
curried position with the message naming that argument. -/
theorem builtin_add_semantics_witness :
    applyBuiltin funcObject.add0 (object.bool false)
      = object.error ("add: not a number: " ++ quoted (render (object.bool false)))
    ∧ applyBuiltin (funcObject.add1 1) (object.bool true)
      = object.error ("add: not a number: " ++ quoted (render (object.bool true))) :=
  ⟨builtin_add_semantics.2.1 (object.bool false) (by decide),
   builtin_add_semantics.2.2.1 1 (object.bool true) (by decide)⟩

end Laminterp
